import Mathlib

/-
Verification of the DomainChecker domain acquisition and validation pipeline.

This file gives a shallow embedding, in Lean 4, of the pure decision logic of
the pipeline's JavaScript/TypeScript sources, and proves properties about it:

  * date/status utilities          (scripts/cleanup.js, scripts/ingest-dropcatch.js)
  * the quality scorer             (calculateDomainScore in the ingestion scripts;
                                    the separate lib/domain-scoring-engine.ts variant
                                    is embedded as well where it differs)
  * the availability validator     (isActuallyExpiring: the multi-method DNS→WHOIS
                                    cascade of the "Complete Ingestion Script with
                                    Scoring + Multi-Method WHOIS Validation", the
                                    variant in scripts/ingest-dropcatch-scored.js,
                                    and the one in lib/whois-validator.ts)
  * the orchestrator's WHOIS failure-cooldown counter (scoreAndFilterDomains)
  * the slug transform and the upsert status rule (upsertDomain)

Modelling conventions:

  * A JavaScript Date / timestamp is an integer count of milliseconds since the
    Unix epoch (all values that appear are far below 2^53, so IEEE doubles
    represent them exactly).
  * A calendar-date string "YYYY-MM-DD" is modelled by its civil day number
    (days since epoch): per the ECMAScript spec, date-only forms parse to UTC
    midnight, i.e. to the timestamp dayNumber * msPerDay, independently of the
    process's local timezone offset.
  * The process's local timezone offset is modelled as a fixed integer
    parameter tz (milliseconds east of UTC) threaded through the functions
    whose sources could in principle observe it; local-field arithmetic
    (Date.prototype.setDate) under a fixed offset adds exact multiples of
    msPerDay to the timestamp.
  * JavaScript's built-in date-string parser (new Date(string)) is modelled as
    an abstract function (parse : String → Option Int) returning the parsed
    timestamp, with none standing for an invalid date (NaN).
  * Divisions such as Math.round(x / 86400000) are modelled over Int; a comment
    at each modelled division records why the double-precision computation in
    the source is exact enough for the integer model to be faithful.
-/

namespace DomainChecker

/-! ## Generic helpers over lists of characters

Core String functions (String.toLower, trim, split, …) are not used because we
need every definition to evaluate inside the kernel; instead the character-list
equivalents below are used, via String.data. -/

/-- JS String.prototype.includes for the needle placed at the start:
needle is a prefix of the haystack. -/
def startsWithList : List Char → List Char → Bool
  | [], _ => true
  | _ :: _, [] => false
  | a :: as, b :: bs => a = b && startsWithList as bs

/-- JS String.prototype.includes: needle occurs contiguously in the haystack. -/
def containsSub (needle : List Char) : List Char → Bool
  | [] => needle.isEmpty
  | b :: bs => startsWithList needle (b :: bs) || containsSub needle bs

/-- JS String.prototype.endsWith on character lists. -/
def endsWithList (needle hay : List Char) : Bool :=
  startsWithList needle.reverse hay.reverse

/-- JS String.prototype.trim on character lists. -/
def trimList (cs : List Char) : List Char :=
  ((cs.dropWhile Char.isWhitespace).reverse.dropWhile Char.isWhitespace).reverse

/-- JS String.prototype.toLowerCase (ASCII as used by the sources). -/
def lowerList (cs : List Char) : List Char := cs.map Char.toLower

/-- Math.max(lo, Math.min(hi, x)): clamp an integer to [lo, hi]. -/
def clampInt (lo hi x : Int) : Int := max lo (min hi x)

/-! ## Date and status utilities -/

/-- Milliseconds per day, the constant 1000 * 60 * 60 * 24 of the sources. -/
def msPerDay : Int := 86400000

/-- scripts/cleanup.js toUtcMidnight: Date.UTC(getUTCFullYear, getUTCMonth,
getUTCDate) recomposes the UTC calendar day of the instant at midnight, i.e.
it floors the timestamp to the enclosing multiple of msPerDay.  (Int `/` is
Euclidean division, which is floor division for the positive literal
divisor.) -/
def toUtcMidnight (t : Int) : Int := msPerDay * (t / msPerDay)

/-- Math.round(num / den) for den > 0: round half toward +∞, the JS rounding
mode.  Every use in this file has den ∣ num, where the double division in the
source is exact and Math.round is the identity, so the model agrees with the
source beyond any rounding subtlety. -/
def mathRoundDiv (num den : Int) : Int := (2 * num + den) / (2 * den)

/-- Math.floor(num / den) for den > 0.  The sources only apply this with
|num| ≤ a few 10^13 and den = msPerDay; the correctly-rounded double quotient
then differs from the rational num/den by < 10^-11, far less than the 1/den ≥
10^-8 gap to the nearest integer, so flooring the double equals flooring the
rational. -/
def mathFloorDiv (num den : Int) : Int := num / den

/-- Math.ceil(num / den) for den > 0 (same exactness argument as
mathFloorDiv). -/
def mathCeilDiv (num den : Int) : Int := -((-num) / den)

/-- new Date("YYYY-MM-DD"): a date-only string parses to UTC midnight of its
civil day number, regardless of the local timezone offset. -/
def parseIsoDate (day : Int) : Int := day * msPerDay

/-- toISOString().split("T")[0]: the UTC civil day number of a timestamp. -/
def toIsoDatePart (t : Int) : Int := t / msPerDay

/-- d.setDate(d.getDate() + n): adding n civil days in local fields; under a
fixed timezone offset this adds exactly n * msPerDay to the timestamp. -/
def jsAddDays (t n : Int) : Int := t + n * msPerDay

namespace Cleanup

/-- scripts/cleanup.js calculateDaysUntilDrop: whole days from now to the drop
date, both operands normalized to UTC midnight before subtracting.  tz is the
ambient local-offset of the process; the source only calls getUTC* accessors,
so tz never enters the computation. -/
def calculateDaysUntilDrop (tz nowMs dropMs : Int) : Int :=
  mathRoundDiv (toUtcMidnight dropMs - toUtcMidnight nowMs) msPerDay

/-- The status bands of scripts/cleanup.js determineStatus, as a function of
daysSinceExpiry. -/
def statusFromDaysSinceExpiry (daysSinceExpiry : Int) : String :=
  if daysSinceExpiry < 0 then "active"
  else if daysSinceExpiry ≤ 30 then "grace"
  else if daysSinceExpiry ≤ 60 then "redemption"
  else if daysSinceExpiry ≤ 75 then "pending_delete"
  else "dropped"

/-- scripts/cleanup.js determineStatus: daysSinceExpiry is the rounded
difference of the UTC midnights of today and the expiry date, then banded. -/
def determineStatus (tz nowMs expiryMs : Int) : String :=
  statusFromDaysSinceExpiry
    (mathRoundDiv (toUtcMidnight nowMs - toUtcMidnight expiryMs) msPerDay)

/-- The columns of a stored domains row that the cleanup sweep reads and
writes (expiry_date and drop_date are date strings, modelled by their civil
day numbers). -/
structure StoredDomain where
  expiryDay : Int
  dropDay : Int
  status : String
  daysUntilDrop : Int
deriving Repr, DecidableEq

/-- One iteration of the loop in scripts/cleanup.js updateDomainStatuses: the
status and day count are recomputed from expiry_date / drop_date, and the row
is written back only if either value actually changed. -/
def updateDomainStatusStep (tz nowMs : Int) (r : StoredDomain) : StoredDomain :=
  let newStatus := determineStatus tz nowMs (parseIsoDate r.expiryDay)
  let newDaysUntilDrop := calculateDaysUntilDrop tz nowMs (parseIsoDate r.dropDay)
  if newStatus ≠ r.status ∨ newDaysUntilDrop ≠ r.daysUntilDrop then
    { r with status := newStatus, daysUntilDrop := newDaysUntilDrop }
  else
    r

end Cleanup

namespace Ingest

/-- scripts/ingest-dropcatch.js calculateExpiryFromDrop: parse the drop date,
setDate(getDate() - 75), take the ISO date part. -/
def calculateExpiryFromDrop (dropDay : Int) : Int :=
  toIsoDatePart (jsAddDays (parseIsoDate dropDay) (-75))

/-- scripts/ingest-dropcatch.js calculateDropDate: parse the expiry date,
setDate(getDate() + 75), take the ISO date part. -/
def calculateDropDate (expiryDay : Int) : Int :=
  toIsoDatePart (jsAddDays (parseIsoDate expiryDay) 75)

/-- scripts/ingest-dropcatch.js calculateDaysUntilDrop: Math.ceil of the raw
millisecond difference between the drop date and now, in days; no midnight
normalization.  tz is the ambient local offset, which neither the date-only
parse nor the raw subtraction consults. -/
def calculateDaysUntilDrop (tz nowMs dropMs : Int) : Int :=
  mathCeilDiv (dropMs - nowMs) msPerDay

end Ingest

namespace Feed

/-- One CSV row of the DropCatch feed, after the header-alias resolution of
fetchDropCatchDomains has located the raw domain-name and drop-date cells
(none = the column is absent / the cell empty on this row). -/
structure CsvRow where
  rawName : Option String
  rawDropDate : Option String
  registrar : Option String
deriving Repr, DecidableEq

/-- The candidate shape produced by fetchDropCatchDomains (dates as civil day
numbers). -/
structure CandidateDomain where
  domainName : String
  dropDate : Int
  expiryDate : Int
  registrar : String
deriving Repr, DecidableEq

/-- normalizeDate of the ingestion scripts: null in, null out; otherwise parse
with new Date and keep the ISO date part, rejecting invalid dates. -/
def normalizeDate (parse : String → Option Int) : Option String → Option Int
  | none => none
  | some raw =>
    match parse raw with
    | none => none
    | some t => some (toIsoDatePart t)

/-- (rawName || '').trim().toLowerCase() on the model's character lists. -/
def normalizeName (rawName : Option String) : String :=
  String.mk (lowerList (trimList (rawName.getD "").data))

/-- The per-row body of fetchDropCatchDomains: rows with an unparseable drop
date or an empty domain name map to none (skipped); surviving rows carry
expiryDate = calculateExpiryFromDrop(dropDate) and the registrar column or
"Unknown". -/
def parseRow (parse : String → Option Int) (row : CsvRow) : Option CandidateDomain :=
  match normalizeDate parse row.rawDropDate with
  | none => none
  | some dropDay =>
    let name := normalizeName row.rawName
    if name = "" then none
    else
      some { domainName := name
             dropDate := dropDay
             expiryDate := Ingest.calculateExpiryFromDrop dropDay
             registrar := row.registrar.getD "Unknown" }

end Feed

/-! ## Quality scorer

calculateDomainScore as defined identically in the two ingestion scripts
("Complete Ingestion Script …" and scripts/ingest-dropcatch-scored.js).  The
input domain name is split at the first dot into name (lowercased) and tld
(not lowercased; "com" when absent or empty). -/

namespace Scoring

/-- domainName.split('.')[0]: the segment before the first dot. -/
def beforeDot (cs : List Char) : List Char := cs.takeWhile (· ≠ '.')

/-- The remainder after the first dot, when a dot exists. -/
def afterDot : List Char → Option (List Char)
  | [] => none
  | c :: rest => if c = '.' then some rest else afterDot rest

/-- name = domainName.split('.')[0].toLowerCase(). -/
def namePart (domainName : String) : List Char :=
  lowerList (beforeDot domainName.data)

/-- tld = domainName.split('.')[1] || 'com' (the source does not lowercase
the tld; an absent or empty second segment falls back to "com"). -/
def tldPart (domainName : String) : String :=
  match afterDot domainName.data with
  | none => "com"
  | some rest =>
    let seg := beforeDot rest
    if seg.isEmpty then "com" else String.mk seg

/-- The consonant class of the gibberish regex [bcdfghjklmnpqrstvwxyz] (the
name is already lowercased when tested). -/
def isConsonant (c : Char) : Bool := c ∈ "bcdfghjklmnpqrstvwxyz".data

/-- Membership in the rare-letter class [xqz]. -/
def isXqz (c : Char) : Bool := c = 'x' || c = 'q' || c = 'z'

/-- a–z after lowercasing (the [a-z] class with the i flag). -/
def isAsciiLower (c : Char) : Bool := 'a' ≤ c && c ≤ 'z'

/-- The vowel class [aeiou]. -/
def isVowel (c : Char) : Bool :=
  c = 'a' || c = 'e' || c = 'i' || c = 'o' || c = 'u'

/-- /^[bcdfghjklmnpqrstvwxyz]{5,}/i : five or more leading consonants. -/
def gibberishLeadingConsonants (name : List Char) : Bool :=
  5 ≤ name.length && (name.take 5).all isConsonant

/-- /[xqz]{2,}/i : two adjacent rare letters anywhere. -/
def gibberishXqzRun : List Char → Bool
  | a :: b :: rest => (isXqz a && isXqz b) || gibberishXqzRun (b :: rest)
  | _ => false

/-- /^\d+[a-z]+$/i : one or more digits then one or more letters, nothing
else. -/
def gibberishDigitsThenLetters (name : List Char) : Bool :=
  let ds := name.takeWhile Char.isDigit
  let rest := name.dropWhile Char.isDigit
  !ds.isEmpty && !rest.isEmpty && rest.all isAsciiLower

/-- /^[a-z]+\d+$/i : one or more letters then one or more digits, nothing
else. -/
def gibberishLettersThenDigits (name : List Char) : Bool :=
  let ls := name.takeWhile isAsciiLower
  let rest := name.dropWhile isAsciiLower
  !ls.isEmpty && !rest.isEmpty && rest.all Char.isDigit

/-- The gibberishPatterns array: any of the four patterns matching the name
triggers the instant reject. -/
def matchesGibberish (name : List Char) : Bool :=
  gibberishLeadingConsonants name || gibberishXqzRun name ||
    gibberishDigitsThenLetters name || gibberishLettersThenDigits name

/-- The score object built by calculateDomainScore. -/
structure QualityScore where
  nameQuality : Int
  trendingWords : Int
  historicalValue : Int
  technicalMetrics : Int
  total : Int
  badges : List String
  reasoning : String
deriving Repr, DecidableEq

/-- The zero score returned on a gibberish match, with its reasoning set. -/
def gibberishScore : QualityScore :=
  { nameQuality := 0, trendingWords := 0, historicalValue := 0
    technicalMetrics := 0, total := 0, badges := []
    reasoning := "Gibberish pattern detected" }

/-- TRENDING_KEYWORDS of the ingestion scripts, in object insertion order. -/
def trendingKeywords : List (String × Int) :=
  [("ai", 25), ("quantum", 24), ("neural", 23), ("llm", 22), ("agent", 21),
   ("autonomous", 20),
   ("defi", 22), ("web3", 21), ("blockchain", 19), ("nft", 18), ("token", 17),
   ("climate", 23), ("carbon", 21), ("renewable", 20), ("solar", 19),
   ("sustainable", 18),
   ("longevity", 24), ("biohack", 22), ("wellness", 20), ("mental", 19),
   ("therapy", 18),
   ("labs", 19), ("hub", 17), ("pro", 18), ("studio", 16), ("academy", 15)]

/-- The trending-words loop: sum the point values of every keyword contained
in the name, pushing a "🔥 Trending" badge for each hit worth 20 or more
(clamping of the sum happens in the caller). -/
def trendingFold (name : List Char) : List (String × Int) → Int × List String
  | [] => (0, [])
  | (kw, pts) :: rest =>
    let (tailPts, tailBadges) := trendingFold name rest
    if containsSub kw.data name then
      (pts + tailPts, (if 20 ≤ pts then ["🔥 Trending"] else []) ++ tailBadges)
    else
      (tailPts, tailBadges)

/-- tldScores of the technical-metrics step. -/
def tldScores : List (String × Int) :=
  [("com", 10), ("io", 8), ("ai", 9), ("app", 7),
   ("dev", 7), ("co", 6), ("net", 5), ("org", 5)]

/-- commonWords of the technical-metrics step. -/
def commonWords : List String :=
  ["get", "my", "go", "use", "find", "make", "build"]

/-- calculateDomainScore of the ingestion scripts.  The vowel-ratio window
0.25 ≤ vowels/length ≤ 0.6 is stated by cross-multiplication (with the
length-zero case excluded, since 0/0 is NaN in JS and both comparisons are
then false); for any name short enough to exist, the double divisions of the
source round to the same side of both bounds as the exact rationals, so the
integer form is faithful. -/
def calculateDomainScore (domainName : String) : QualityScore :=
  let name := namePart domainName
  let tld := tldPart domainName
  let len : Int := name.length
  if matchesGibberish name then gibberishScore
  else
    -- 1. NAME QUALITY (0-30 points)
    let lengthPts : Int :=
      if 2 ≤ len ∧ len ≤ 8 then 18
      else if 9 ≤ len ∧ len ≤ 12 then 12
      else if 13 ≤ len ∧ len ≤ 16 then 6
      else if 17 ≤ len then -10
      else 0
    let vowels : Int := name.countP (fun c => isVowel c)
    let vowelPts : Int :=
      if len ≠ 0 ∧ 4 * vowels ≥ len ∧ 5 * vowels ≤ 3 * len then 10 else 0
    let digitPts : Int := if name.any Char.isDigit then -5 else 5
    let hyphenPts : Int := if name.any (· = '-') then -5 else 5
    let nameQuality := clampInt 0 30 (lengthPts + vowelPts + digitPts + hyphenPts)
    -- 2. TRENDING WORDS (0-25 points)
    let (trendingRaw, trendingBadges) := trendingFold name trendingKeywords
    let trendingWords := min 25 trendingRaw
    -- 3. HISTORICAL VALUE (0-25 points)
    let shortPremium : Int :=
      if len ≤ 5 ∧ tld ∈ ["com", "io", "ai"] then 15 else 0
    let patternPts : Int :=
      if endsWithList "ai".data name || endsWithList "labs".data name ||
          endsWithList "hub".data name || endsWithList "pro".data name
      then 10 else 0
    let historicalValue := min 25 (shortPremium + patternPts)
    -- 4. TECHNICAL METRICS (-12..20 points)
    let tldPts : Int := (tldScores.lookup tld).getD 3
    let wordPts : Int :=
      if commonWords.any (fun w =>
          startsWithList w.data name || endsWithList w.data name)
      then 5 else 0
    let cleanPts : Int := if name.all isAsciiLower then 5 else 0
    let lengthPenalty : Int :=
      if 17 ≤ len then -12 else if 13 ≤ len then -5 else 0
    let technicalMetrics :=
      clampInt (-12) 20 (tldPts + wordPts + cleanPts + lengthPenalty)
    -- TOTAL and decorations
    let total := clampInt 0 100
      (nameQuality + trendingWords + historicalValue + technicalMetrics)
    let badges := trendingBadges
      ++ (if 25 ≤ nameQuality then ["💎 Premium"] else [])
      ++ (if 20 ≤ historicalValue then ["📈 High Value"] else [])
      ++ (if len ≤ 5 then ["⚡ Short"] else [])
    let reasoning :=
      if 80 ≤ total then "Exceptional domain"
      else if 60 ≤ total then "Strong domain"
      else if 40 ≤ total then "Decent domain"
      else if 20 ≤ total then "Average domain"
      else "Low quality domain"
    { nameQuality := nameQuality, trendingWords := trendingWords
      historicalValue := historicalValue, technicalMetrics := technicalMetrics
      total := total, badges := badges, reasoning := reasoning }

end Scoring

/-! ## Availability validation

The DNS, WHOIS-retry and WHOIS-inspection helpers shared verbatim by the two
ingestion scripts, then the three isActuallyExpiring variants:

  * MultiMethod.isActuallyExpiring — the DNS→WHOIS cascade of the "Complete
    Ingestion Script with Scoring + Multi-Method WHOIS Validation";
  * Scored.isActuallyExpiring — scripts/ingest-dropcatch-scored.js, which
    tries a registrar-scrape (Namecheap) signal and/or WHOIS per its
    DOMAIN_STATUS_SOURCE configuration;
  * WhoisValidator.isActuallyExpiring — lib/whois-validator.ts.

A WHOIS response is a field → value dictionary, modelled as an association
list of strings; absent fields are simply missing keys, and a JS-falsy (empty)
value behaves like an absent one exactly where the sources test truthiness. -/

/-- The three-valued outcome of the quick DNS check. -/
inductive DnsStatus
  | registered
  | available
  | unknown
deriving Repr, DecidableEq

/-- quickDomainCheck: the DoH request either throws (modelled by none, giving
'unknown') or yields JSON whose optional Answer array decides: a non-empty
Answer means 'registered', anything else 'available'. -/
def quickDomainCheck (response : Option (Option (List String))) : DnsStatus :=
  match response with
  | none => .unknown
  | some none => .available
  | some (some answers) => if 0 < answers.length then .registered else .available

/-- A WHOIS result object: field name → field value. -/
def WhoisData := List (String × String)
deriving instance Repr, DecidableEq for WhoisData

/-- isWhoisTransientError: the lowercased error message contains one of the
transient-looking tokens. -/
def isWhoisTransientError (errorMessage : String) : Bool :=
  let normalized := lowerList errorMessage.data
  ["econnrefused", "etimedout", "socket hang up", "econnreset",
   "connection reset"].any (fun token => containsSub token.data normalized)

/-- queryWhoisWithRetry over the list of outcomes the successive whois()
calls would produce (one entry per configured attempt): the first success is
returned; an error is retried only while it looks transient and attempts
remain, otherwise it is thrown.  An empty attempt list (retry count 0) throws
the initial null lastError, modelled as an empty message. -/
def queryWhoisWithRetry : List (Except String WhoisData) → Except String WhoisData
  | [] => .error ""
  | [outcome] => outcome
  | outcome :: rest =>
    match outcome with
    | .ok result => .ok result
    | .error msg =>
      if isWhoisTransientError msg then queryWhoisWithRetry rest
      else .error msg

/-- getWhoisValue: the first key whose value is present and truthy wins. -/
def getWhoisValue (result : WhoisData) (keys : List String) : Option String :=
  match keys with
  | [] => none
  | k :: ks =>
    match List.lookup k result with
    | some v => if v ≠ "" then some v else getWhoisValue result ks
    | none => getWhoisValue result ks

/-- parseWhoisDate: null in, null out; otherwise the JS date parse (abstract
parse function; none = Invalid Date). -/
def parseWhoisDate (parse : String → Option Int) : Option String → Option Int
  | none => none
  | some v => parse v

/-- Split a character list on whitespace (the \s class of the status
regex). -/
def splitOnWhitespace : List Char → List (List Char)
  | [] => [[]]
  | c :: rest =>
    let ws := splitOnWhitespace rest
    if c.isWhitespace then [] :: ws
    else
      match ws with
      | [] => [[c]]
      | w :: rest2 => (c :: w) :: rest2

/-- The status tokens of /(^|\s)(ok|active|client|server|registered)(\s|$)/:
the regex requires the token to be whitespace-delimited inside the joined,
lowercased status string, which is exactly membership in its
whitespace-split word list. -/
def hasActiveStatusToken (statusRaw : List Char) : Bool :=
  splitOnWhitespace statusRaw |>.any (fun w =>
    w ∈ (["ok", "active", "client", "server", "registered"].map String.data))

/-- The status-field family joined by isWhoisClearlyRegistered. -/
def statusFieldKeys : List String :=
  ["status", "domainStatus", "domain_status", "Domain Status"]

/-- isWhoisClearlyRegistered: an explicit active/ok/client/server/registered
status token, or a creation date at most 30 days old, or a present registrar
whose trimmed value is not "-". -/
def isWhoisClearlyRegistered (parse : String → Option Int) (nowMs : Int)
    (result : WhoisData) : Bool :=
  let statusVals :=
    (statusFieldKeys.map (fun k => List.lookup k result)).filterMap id
      |>.filter (fun v => v ≠ "")
  let statusRaw := lowerList (String.intercalate " " statusVals).data
  if hasActiveStatusToken statusRaw then true
  else
    let creationRecent :=
      match parseWhoisDate parse (getWhoisValue result
          ["creationDate", "createdDate", "created", "Creation Date"]) with
      | none => false
      | some t => mathFloorDiv (nowMs - t) msPerDay ≤ 30
    if creationRecent then true
    else
      match getWhoisValue result
          ["registrar", "Registrar Name", "sponsoringRegistrar"] with
      | none => false
      | some r => String.mk (trimList r.data) ≠ "-"

/-- The verdict of one isActuallyExpiring call together with the
context.hadWhoisError flag it leaves behind. -/
structure ValidationOutcome where
  verdict : Bool
  hadWhoisError : Bool
deriving Repr, DecidableEq

namespace MultiMethod

/-- The expanded expiry-date field family of the multi-method script (15+
registry variants). -/
def expiryFieldKeys : List String :=
  ["expirationDate", "expiresDate", "registryExpiryDate",
   "Registry Expiry Date", "Expiry Date", "Expiration Date",
   "paid_till", "paid-till", "expires", "expiry",
   "domain_expiration_date", "Domain Expiration Date", "expiration",
   "expire_date", "expire-date", "expiry_date", "expiry-date",
   "free-date", "renewal_date", "renewal-date"]

/-- isActuallyExpiring of the multi-method ingestion script, with
ENABLE_WHOIS_CHECK at its hard-coded value true.  Inputs: the DoH response
and the per-attempt WHOIS outcomes; the verdict and the hadWhoisError flag
are returned together.

Step 1 is the quick DNS check: records found reject immediately.  Step 2 runs
WHOIS with retry; an empty result or a result with no parseable expiry date
confirms exactly when the DNS signal was 'available'; a clearly-registered
result or a future expiry rejects; a past expiry confirms exactly inside the
60–80 day drop window.  A WHOIS failure after retries sets hadWhoisError and
confirms exactly when the DNS signal was 'available'. -/
def isActuallyExpiring (parse : String → Option Int) (nowMs : Int)
    (dnsResponse : Option (Option (List String)))
    (whoisAttempts : List (Except String WhoisData)) : ValidationOutcome :=
  let dnsStatus := quickDomainCheck dnsResponse
  if dnsStatus = .registered then ⟨false, false⟩
  else
    match queryWhoisWithRetry whoisAttempts with
    | .error _ => ⟨decide (dnsStatus = .available), true⟩
    | .ok result =>
      if result.isEmpty then ⟨decide (dnsStatus = .available), false⟩
      else if isWhoisClearlyRegistered parse nowMs result then ⟨false, false⟩
      else
        match parseWhoisDate parse (getWhoisValue result expiryFieldKeys) with
        | none => ⟨decide (dnsStatus = .available), false⟩
        | some expiry =>
          if nowMs < expiry then ⟨false, false⟩
          else
            let daysSinceExpiry := mathFloorDiv (nowMs - expiry) msPerDay
            if daysSinceExpiry < 60 ∨ 80 < daysSinceExpiry then ⟨false, false⟩
            else ⟨true, false⟩

end MultiMethod

namespace Scored

/-- The short expiry-date field family of ingest-dropcatch-scored.js. -/
def expiryFieldKeys : List String :=
  ["expirationDate", "expiresDate", "registryExpiryDate",
   "Registry Expiry Date", "paid_till"]

/-- The DOMAIN_STATUS_SOURCE configuration: which signal is tried first. -/
inductive StatusSource
  | namecheap
  | whois
deriving Repr, DecidableEq

/-- The outcome of getNamecheapStatus: the scrape classified the page as
taken or available, or anything else (no marker matched, HTTP error, 403
anti-bot block) collapsed to unknown. -/
inductive NamecheapStatus
  | taken
  | available
  | unknown
deriving Repr, DecidableEq

/-- The WHOIS phase of Scored.isActuallyExpiring: the try block around
queryWhoisWithRetry, plus the catch block.  On success: an empty result, a
clearly-registered result, a missing expiry date, a future expiry or a
past expiry outside the 60–80 day window all reject; only the window
confirms.  On failure: hadWhoisError is set; the whois-first configuration
falls back to a fresh Namecheap scrape and confirms exactly on 'available',
while the scrape-first configuration performs a quick DNS check whose result
is only logged and rejects unconditionally. -/
def whoisPhase (parse : String → Option Int) (nowMs : Int)
    (source : StatusSource) (namecheap : NamecheapStatus)
    (whoisAttempts : List (Except String WhoisData))
    (dnsResponse : Option (Option (List String))) : ValidationOutcome :=
  match queryWhoisWithRetry whoisAttempts with
  | .ok result =>
    if result.isEmpty then ⟨false, false⟩
    else if isWhoisClearlyRegistered parse nowMs result then ⟨false, false⟩
    else
      match parseWhoisDate parse (getWhoisValue result expiryFieldKeys) with
      | none => ⟨false, false⟩
      | some expiry =>
        if nowMs < expiry then ⟨false, false⟩
        else
          let daysSinceExpiry := mathFloorDiv (nowMs - expiry) msPerDay
          if daysSinceExpiry < 60 ∨ 80 < daysSinceExpiry then ⟨false, false⟩
          else ⟨true, false⟩
  | .error _ =>
    match source with
    | .whois => ⟨decide (namecheap = .available), true⟩
    | .namecheap =>
      let _dnsStatus := quickDomainCheck dnsResponse
      ⟨false, true⟩

/-- isActuallyExpiring of scripts/ingest-dropcatch-scored.js
(ENABLE_WHOIS_CHECK hard-coded true).  With the default scrape-first
configuration (DOMAIN_STATUS_SOURCE anything but "whois"), a Namecheap
'available' confirms and 'taken' rejects before WHOIS ever runs; 'unknown'
falls through to the WHOIS phase.  With the whois-first configuration the
WHOIS phase runs immediately. -/
def isActuallyExpiring (parse : String → Option Int) (nowMs : Int)
    (source : StatusSource) (namecheap : NamecheapStatus)
    (whoisAttempts : List (Except String WhoisData))
    (dnsResponse : Option (Option (List String))) : ValidationOutcome :=
  match source with
  | .namecheap =>
    match namecheap with
    | .available => ⟨true, false⟩
    | .taken => ⟨false, false⟩
    | .unknown => whoisPhase parse nowMs source namecheap whoisAttempts dnsResponse
  | .whois => whoisPhase parse nowMs source namecheap whoisAttempts dnsResponse

end Scored

namespace WhoisValidator

/-- isActuallyExpiring of lib/whois-validator.ts: no DNS step, no retry.  A
thrown WHOIS error returns true ("on error, assume it might be expiring").
Otherwise only the literal expirationDate field is consulted: absent or falsy
rejects; a future expiry rejects; a past expiry confirms exactly inside the
60–80 day window.  An unparseable expirationDate gives an Invalid Date whose
NaN comparisons are all false, so the function falls through to return
true. -/
def isActuallyExpiring (parse : String → Option Int) (nowMs : Int)
    (whoisOutcome : Except String WhoisData) : Bool :=
  match whoisOutcome with
  | .error _ => true
  | .ok result =>
    match List.lookup "expirationDate" result with
    | none => false
    | some v =>
      if v = "" then false
      else
        match parse v with
        | none => true
        | some expiry =>
          if nowMs < expiry then false
          else
            let daysSinceExpiry := mathFloorDiv (nowMs - expiry) msPerDay
            if daysSinceExpiry < 60 ∨ 80 < daysSinceExpiry then false
            else true

end WhoisValidator

/-! ## Orchestrator: the consecutive-WHOIS-failure cooldown counter

scoreAndFilterDomains (identical logic in both ingestion scripts) keeps a
consecutiveWhoisFailures counter across the candidate loop.  A low-score
candidate skips validation entirely and leaves the counter alone; a confirmed
candidate resets it; a rejected candidate increments it when the validator
flagged hadWhoisError and resets it otherwise; after updating, the loop
sleeps for the cooldown interval exactly when the counter is positive and
divisible by WHOIS_FAILURE_COOLDOWN_AFTER (ENABLE_WHOIS_CHECK is hard-coded
true). -/

namespace Orchestrator

/-- How one candidate's iteration ended, as seen by the failure counter. -/
inductive CandidateOutcome
  | lowScore
  | confirmed
  | rejected (hadWhoisError : Bool)
deriving Repr, DecidableEq

/-- One iteration of the counter/cooldown logic: the updated counter and
whether the cooldown sleep fired. -/
def whoisFailureStep (threshold counter : Nat) :
    CandidateOutcome → Nat × Bool
  | .lowScore => (counter, false)
  | .confirmed => (0, false)
  | .rejected hadWhoisError =>
    let next := if hadWhoisError then counter + 1 else 0
    (next, decide (0 < next ∧ next % threshold = 0))

/-- The whole loop: the trace, over a run, of each candidate's outcome
together with the counter value after the update and whether the cooldown
sleep fired on that iteration. -/
def whoisFailureTrace (threshold counter : Nat) :
    List CandidateOutcome → List (CandidateOutcome × Nat × Bool)
  | [] => []
  | outcome :: rest =>
    let s := whoisFailureStep threshold counter outcome
    (outcome, s) :: whoisFailureTrace threshold s.1 rest

end Orchestrator

/-! ## Store upsert: the slug and the status written by upsertDomain -/

/-- domain.domainName.replace(/\./g, '-'): every dot becomes a hyphen. -/
def slugOf (domainName : String) : String :=
  String.mk (domainName.data.map (fun c => if c = '.' then '-' else c))

namespace Scored

/-- upsertDomain of ingest-dropcatch-scored.js recomputes the drop date as
expiryDate + 75 days and the day count as Math.ceil of the raw millisecond
distance from now. -/
def upsertDaysUntilDrop (tz nowMs expiryDay : Int) : Int :=
  mathCeilDiv (jsAddDays (parseIsoDate expiryDay) 75 - nowMs) msPerDay

/-- The status column written by upsertDomain of ingest-dropcatch-scored.js:
pending_delete while the drop is not in the past, dropped afterwards. -/
def upsertStatus (tz nowMs expiryDay : Int) : String :=
  if 0 ≤ upsertDaysUntilDrop tz nowMs expiryDay then "pending_delete"
  else "dropped"

end Scored

/-! ## Shared lemmas -/

/-- Rounding the UTC-midnight difference of two timestamps recovers the
difference of their UTC civil day numbers. -/
lemma mathRoundDiv_utcMidnight_sub (a b : Int) :
    mathRoundDiv (toUtcMidnight a - toUtcMidnight b) msPerDay
      = a / msPerDay - b / msPerDay := by
  simp only [mathRoundDiv, toUtcMidnight, msPerDay]
  omega

/-- Evaluating determineStatus when now sits exactly d days after the
timestamp of the stored expiry date reduces it to the status bands at d. -/
lemma determineStatus_day_shift (tz e d : Int) :
    Cleanup.determineStatus tz (parseIsoDate e + d * msPerDay) (parseIsoDate e)
      = Cleanup.statusFromDaysSinceExpiry d := by
  simp only [Cleanup.determineStatus, mathRoundDiv_utcMidnight_sub]
  congr 1
  simp only [parseIsoDate, msPerDay]
  omega

/-- Day arithmetic on ISO dates: parse, add n civil days, take the date part. -/
lemma toIsoDatePart_jsAddDays (d n : Int) :
    toIsoDatePart (jsAddDays (parseIsoDate d) n) = d + n := by
  simp only [toIsoDatePart, jsAddDays, parseIsoDate, msPerDay]
  omega

/-- The day count written by the scored upsert, evaluated when now sits
exactly d days after the expiry date's timestamp. -/
lemma upsertDaysUntilDrop_day_shift (tz e d : Int) :
    Scored.upsertDaysUntilDrop tz (parseIsoDate e + d * msPerDay) e = 75 - d := by
  simp only [Scored.upsertDaysUntilDrop, mathCeilDiv, jsAddDays, parseIsoDate, msPerDay]
  omega

/-! ## Claims -/

/-- C6: for every integer daysSinceExpiry value, the cleanup lifecycle
function lands in exactly one of the five bands — active below 0, grace on
0..30, redemption on 31..60, pending_delete on 61..75, dropped above 75 —
the full determineStatus reduces to those bands for a now that lies d days
after the expiry timestamp, and the eight boundary inputs land in the
expected bands. -/
theorem lifecycle_bands_partition :
    (∀ d : Int,
      (Cleanup.statusFromDaysSinceExpiry d = "active" ↔ d < 0)
      ∧ (Cleanup.statusFromDaysSinceExpiry d = "grace" ↔ 0 ≤ d ∧ d ≤ 30)
      ∧ (Cleanup.statusFromDaysSinceExpiry d = "redemption" ↔ 31 ≤ d ∧ d ≤ 60)
      ∧ (Cleanup.statusFromDaysSinceExpiry d = "pending_delete" ↔ 61 ≤ d ∧ d ≤ 75)
      ∧ (Cleanup.statusFromDaysSinceExpiry d = "dropped" ↔ 76 ≤ d))
    ∧ (∀ tz e d : Int,
        Cleanup.determineStatus tz (parseIsoDate e + d * msPerDay) (parseIsoDate e)
          = Cleanup.statusFromDaysSinceExpiry d)
    ∧ Cleanup.statusFromDaysSinceExpiry (-1) = "active"
    ∧ Cleanup.statusFromDaysSinceExpiry 0 = "grace"
    ∧ Cleanup.statusFromDaysSinceExpiry 30 = "grace"
    ∧ Cleanup.statusFromDaysSinceExpiry 31 = "redemption"
    ∧ Cleanup.statusFromDaysSinceExpiry 60 = "redemption"
    ∧ Cleanup.statusFromDaysSinceExpiry 61 = "pending_delete"
    ∧ Cleanup.statusFromDaysSinceExpiry 75 = "pending_delete"
    ∧ Cleanup.statusFromDaysSinceExpiry 76 = "dropped" := by
  refine ⟨?_, determineStatus_day_shift, ?_, ?_, ?_, ?_, ?_, ?_, ?_, ?_⟩
  · intro d
    simp only [Cleanup.statusFromDaysSinceExpiry]
    split_ifs with h1 h2 h3 h4 <;>
      refine ⟨?_, ?_, ?_, ?_, ?_⟩ <;>
      constructor <;>
      intro h <;>
      first
        | omega
        | (exact absurd h (by decide))
        | (exact absurd h (by omega))
        | rfl
  all_goals decide

/-- C7: the whole-day drop count is a two-run hyperproperty invariant —
varying only the process's local timezone offset while holding the UTC
instants fixed never changes calculateDaysUntilDrop, in either the cleanup
script (where it moreover equals the difference of the UTC civil day numbers
of the two operands, the effect of normalizing both to UTC midnight before
subtracting) or the ingest script. -/
theorem daysUntilDrop_timezone_invariant :
    ∀ tz₁ tz₂ nowMs dropMs : Int,
      Cleanup.calculateDaysUntilDrop tz₁ nowMs dropMs
          = Cleanup.calculateDaysUntilDrop tz₂ nowMs dropMs
      ∧ Cleanup.calculateDaysUntilDrop tz₁ nowMs dropMs
          = dropMs / msPerDay - nowMs / msPerDay
      ∧ Ingest.calculateDaysUntilDrop tz₁ nowMs dropMs
          = Ingest.calculateDaysUntilDrop tz₂ nowMs dropMs := by
  intro tz₁ tz₂ nowMs dropMs
  refine ⟨rfl, ?_, rfl⟩
  simp only [Cleanup.calculateDaysUntilDrop, mathRoundDiv_utcMidnight_sub]

/-- C9: calculateDropDate and calculateExpiryFromDrop are mutually inverse
on civil dates (adding 75 days then subtracting 75 days is the identity, and
conversely), and every candidate produced by the feed parser satisfies
expiryDate = dropDate − 75 days. -/
theorem drop_expiry_roundtrip :
    (∀ e : Int, Ingest.calculateExpiryFromDrop (Ingest.calculateDropDate e) = e)
    ∧ (∀ d : Int, Ingest.calculateDropDate (Ingest.calculateExpiryFromDrop d) = d)
    ∧ (∀ (parse : String → Option Int) (row : Feed.CsvRow)
        (c : Feed.CandidateDomain),
        Feed.parseRow parse row = some c → c.expiryDate = c.dropDate - 75) := by
  refine ⟨?_, ?_, ?_⟩
  · intro e
    simp only [Ingest.calculateExpiryFromDrop, Ingest.calculateDropDate,
      toIsoDatePart_jsAddDays]
    omega
  · intro d
    simp only [Ingest.calculateExpiryFromDrop, Ingest.calculateDropDate,
      toIsoDatePart_jsAddDays]
    omega
  · intro parse row c h
    simp only [Feed.parseRow] at h
    rcases hd : Feed.normalizeDate parse row.rawDropDate with _ | dropDay
    · rw [hd] at h
      exact absurd h (by simp)
    · rw [hd] at h
      by_cases hn : Feed.normalizeName row.rawName = ""
      · simp [hn] at h
      · simp only [hn, if_false] at h
        cases h
        simp only [Ingest.calculateExpiryFromDrop, toIsoDatePart_jsAddDays]
        omega

/-- C9 witness: a concrete row (name " AI.com ", drop date parsing to day
20000) parses to a candidate whose expiry date is its drop date minus 75. -/
theorem drop_expiry_roundtrip_witness :
    (({ domainName := "ai.com", dropDate := 20000, expiryDate := 19925,
        registrar := "Unknown" } : Feed.CandidateDomain)).expiryDate
      = (({ domainName := "ai.com", dropDate := 20000, expiryDate := 19925,
            registrar := "Unknown" } : Feed.CandidateDomain)).dropDate - 75 :=
  drop_expiry_roundtrip.2.2 (fun _ => some 1728000000000)
    { rawName := some " AI.com ", rawDropDate := some "2024-10-14",
      registrar := none }
    _ (by decide)

/-- Mapping dots to hyphens is injective on character lists that contain no
hyphen. -/
lemma slug_map_injOn :
    ∀ a b : List Char, '-' ∉ a → '-' ∉ b →
      a.map (fun c => if c = '.' then '-' else c)
        = b.map (fun c => if c = '.' then '-' else c) → a = b := by
  intro a
  induction a with
  | nil =>
    intro b _ _ h
    cases b with
    | nil => rfl
    | cons y ys => exact absurd h (by simp)
  | cons x xs ih =>
    intro b hxa hb h
    cases b with
    | nil => exact absurd h (by simp)
    | cons y ys =>
      simp only [List.map_cons, List.cons.injEq] at h
      have hx : x ≠ '-' := fun hc => hxa (hc ▸ List.mem_cons_self x xs)
      have hy : y ≠ '-' := fun hc => hb (hc ▸ List.mem_cons_self y ys)
      have hxy : x = y := by
        rcases h with ⟨h1, _⟩
        by_cases hxd : x = '.' <;> by_cases hyd : y = '.' <;>
          simp only [hxd, hyd, if_pos, if_neg, if_true, if_false] at h1 <;>
          first
            | rfl
            | (exact absurd h1.symm hy)
            | (exact absurd h1 hx)
            | (rw [hxd, hyd])
            | exact h1
      have hxs : xs = ys :=
        ih ys (fun hm => hxa (List.mem_cons_of_mem x hm))
          (fun hm => hb (List.mem_cons_of_mem y hm)) h.2
      rw [hxy, hxs]

/-- C10 counterexample: the dot→hyphen slug transform is not injective over
valid domain names — the distinct domains a-b.com and a.b.com share the slug
a-b-com, so the original domainName cannot always be recovered. -/
theorem slug_not_injective :
    slugOf "a-b.com" = "a-b-com"
    ∧ slugOf "a.b.com" = "a-b-com"
    ∧ "a-b.com" ≠ "a.b.com" := by
  refine ⟨?_, ?_, ?_⟩ <;> decide

/-- C10 amended: the slug transform is deterministic (it is a pure function
of domainName) and is injective over hyphen-free domain names; names that
already contain hyphens may collide. -/
theorem slug_injective_on_hyphen_free :
    ∀ s t : String, '-' ∉ s.data → '-' ∉ t.data → slugOf s = slugOf t → s = t := by
  intro s t hs ht h
  simp only [slugOf] at h
  cases s with
  | mk a =>
    cases t with
    | mk b =>
      have hdata : a.map (fun c => if c = '.' then '-' else c)
          = b.map (fun c => if c = '.' then '-' else c) := by
        injection h
      rw [slug_map_injOn a b hs ht hdata]

/-- C10 amended witness: the injectivity theorem applied at the hyphen-free
domain ai.com. -/
theorem slug_injective_on_hyphen_free_witness : "ai.com" = "ai.com" :=
  slug_injective_on_hyphen_free "ai.com" "ai.com" (by decide) (by decide) rfl

/-- C8: in the orchestrator loop, the consecutive-WHOIS-failure counter
increments (to counter + 1) exactly on a rejection flagged as a transport
failure, resets to zero on any non-failure outcome (confirmed or clean
reject), and the cooldown sleep fires exactly at a failure step whose updated
counter is a positive multiple of the configured threshold — and every sleep
in a whole run's trace occurs at such a step. -/
theorem cooldown_counter_policy :
    ∀ (threshold counter : Nat) (o : Orchestrator.CandidateOutcome),
      ((Orchestrator.whoisFailureStep threshold counter o).1 = counter + 1
        ↔ o = .rejected true)
      ∧ ((o = .confirmed ∨ o = .rejected false) →
          (Orchestrator.whoisFailureStep threshold counter o).1 = 0)
      ∧ ((Orchestrator.whoisFailureStep threshold counter o).2 = true
        ↔ o = .rejected true
          ∧ 0 < (Orchestrator.whoisFailureStep threshold counter o).1
          ∧ ∃ k, (Orchestrator.whoisFailureStep threshold counter o).1
              = k * threshold)
      ∧ (∀ (init : Nat) (outcomes : List Orchestrator.CandidateOutcome)
          (entry : Orchestrator.CandidateOutcome × Nat × Bool),
          entry ∈ Orchestrator.whoisFailureTrace threshold init outcomes →
          (entry.2.2 = true ↔ entry.1 = .rejected true ∧ 0 < entry.2.1
            ∧ ∃ k, entry.2.1 = k * threshold)) := by
  have step_iff : ∀ (threshold counter : Nat) (o : Orchestrator.CandidateOutcome),
      (Orchestrator.whoisFailureStep threshold counter o).2 = true
        ↔ o = .rejected true
          ∧ 0 < (Orchestrator.whoisFailureStep threshold counter o).1
          ∧ ∃ k, (Orchestrator.whoisFailureStep threshold counter o).1
              = k * threshold := by
    intro threshold counter o
    cases o with
    | lowScore =>
      constructor
      · intro h; exact Bool.noConfusion h
      · rintro ⟨h, -⟩; exact Orchestrator.CandidateOutcome.noConfusion h
    | confirmed =>
      constructor
      · intro h; exact Bool.noConfusion h
      · rintro ⟨h, -⟩; exact Orchestrator.CandidateOutcome.noConfusion h
    | rejected hadWhoisError =>
      cases hadWhoisError with
      | false =>
        constructor
        · intro h; exact Bool.noConfusion h
        · rintro ⟨h, -⟩
          have h2 : false = true := by injection h
          exact Bool.noConfusion h2
      | true =>
        have hstep : Orchestrator.whoisFailureStep threshold counter (.rejected true)
            = (counter + 1,
               decide (0 < counter + 1 ∧ (counter + 1) % threshold = 0)) := rfl
        rw [hstep]
        simp only [decide_eq_true_eq]
        constructor
        · rintro ⟨-, hmod⟩
          refine ⟨by trivial, Nat.succ_pos counter, (counter + 1) / threshold,
            (Nat.div_mul_cancel (Nat.dvd_of_mod_eq_zero hmod)).symm⟩
        · rintro ⟨-, -, k, hk⟩
          exact ⟨Nat.succ_pos counter,
            by rw [hk]; exact Nat.mul_mod_left k threshold⟩
  intro threshold counter o
  refine ⟨?_, ?_, step_iff threshold counter o, ?_⟩
  · cases o with
    | lowScore =>
      constructor
      · intro h
        have h0 : counter = counter + 1 := h
        omega
      · intro h; exact Orchestrator.CandidateOutcome.noConfusion h
    | confirmed =>
      constructor
      · intro h
        have h0 : (0 : Nat) = counter + 1 := h
        omega
      · intro h; exact Orchestrator.CandidateOutcome.noConfusion h
    | rejected hadWhoisError =>
      cases hadWhoisError with
      | false =>
        constructor
        · intro h
          have h0 : (0 : Nat) = counter + 1 := h
          omega
        · intro h
          have h2 : false = true := by injection h
          exact Bool.noConfusion h2
      | true => exact ⟨fun _ => rfl, fun _ => rfl⟩
  · rintro (rfl | rfl) <;> rfl
  · intro init outcomes
    induction outcomes generalizing init with
    | nil =>
      intro entry h
      exact absurd h (by simp [Orchestrator.whoisFailureTrace])
    | cons hd tl ih =>
      intro entry hmem
      simp only [Orchestrator.whoisFailureTrace, List.mem_cons] at hmem
      rcases hmem with rfl | hmem
      · exact step_iff threshold init hd
      · exact ih _ _ hmem

/-- C8 witness: the policy applied at threshold 2, counter 1 and a
transport-failure rejection — the counter increments to 2 and that step
sleeps. -/
theorem cooldown_counter_policy_witness :
    (Orchestrator.whoisFailureStep 2 1 (.rejected true)).1 = 1 + 1
    ∧ (Orchestrator.whoisFailureStep 2 0 .confirmed).1 = 0 :=
  ⟨(cooldown_counter_policy 2 1 (.rejected true)).1.mpr rfl,
   (cooldown_counter_policy 2 0 .confirmed).2.1 (Or.inl rfl)⟩

/-- C4: any domain whose name part (before the first dot) matches one of the
gibberish patterns — five or more leading consonants, an adjacent x/q/z pair,
digits then letters, or letters then digits — scores total 0 with reasoning
"Gibberish pattern detected", every sub-score 0 and no badges: the gate
short-circuits all other scoring. -/
theorem gibberish_short_circuits :
    ∀ domainName : String,
      (Scoring.gibberishLeadingConsonants (Scoring.namePart domainName)
        || Scoring.gibberishXqzRun (Scoring.namePart domainName)
        || Scoring.gibberishDigitsThenLetters (Scoring.namePart domainName)
        || Scoring.gibberishLettersThenDigits (Scoring.namePart domainName)) = true →
      (Scoring.calculateDomainScore domainName).total = 0
      ∧ (Scoring.calculateDomainScore domainName).reasoning
          = "Gibberish pattern detected"
      ∧ (Scoring.calculateDomainScore domainName).nameQuality = 0
      ∧ (Scoring.calculateDomainScore domainName).trendingWords = 0
      ∧ (Scoring.calculateDomainScore domainName).historicalValue = 0
      ∧ (Scoring.calculateDomainScore domainName).technicalMetrics = 0
      ∧ (Scoring.calculateDomainScore domainName).badges = [] := by
  intro domainName h
  have hg : Scoring.matchesGibberish (Scoring.namePart domainName) = true := h
  have hscore : Scoring.calculateDomainScore domainName = Scoring.gibberishScore := by
    simp only [Scoring.calculateDomainScore, hg, if_true]
  rw [hscore]
  refine ⟨rfl, rfl, rfl, rfl, rfl, rfl, rfl⟩

/-- C4 witness: bcdfgk.com (six leading consonants) scores total 0 with the
gibberish reasoning. -/
theorem gibberish_short_circuits_witness :
    (Scoring.calculateDomainScore "bcdfgk.com").total = 0
    ∧ (Scoring.calculateDomainScore "bcdfgk.com").reasoning
        = "Gibberish pattern detected"
    ∧ (Scoring.calculateDomainScore "bcdfgk.com").nameQuality = 0
    ∧ (Scoring.calculateDomainScore "bcdfgk.com").trendingWords = 0
    ∧ (Scoring.calculateDomainScore "bcdfgk.com").historicalValue = 0
    ∧ (Scoring.calculateDomainScore "bcdfgk.com").technicalMetrics = 0
    ∧ (Scoring.calculateDomainScore "bcdfgk.com").badges = [] :=
  gibberish_short_circuits "bcdfgk.com" (by decide)

/-- C5 counterexample: a record whose expiry lies 10 days in the past — the
§4.1 lifecycle function yields grace, but the scored ingestion upsert stores
pending_delete (it derives status from daysUntilDrop ≥ 0, not from the
lifecycle function), so the stored status is not always the lifecycle
value. -/
theorem upsert_status_not_lifecycle :
    Scored.upsertStatus 0 (parseIsoDate 10) 0 = "pending_delete"
    ∧ Cleanup.determineStatus 0 (parseIsoDate 10) (parseIsoDate 0) = "grace"
    ∧ "pending_delete" ≠ "grace" := by
  refine ⟨?_, ?_, ?_⟩ <;> decide

/-- C5 amended: the reconciliation sweep always leaves the stored status
equal to the lifecycle function of the record's expiry date and the current
date (recomputed, never stale); the scored ingestion upsert instead derives
status by the two-valued daysUntilDrop rule, which agrees with the lifecycle
function exactly when at least 61 days have passed since expiry. -/
theorem status_recompute_policy :
    (∀ (tz nowMs : Int) (r : Cleanup.StoredDomain),
      (Cleanup.updateDomainStatusStep tz nowMs r).status
        = Cleanup.determineStatus tz nowMs (parseIsoDate r.expiryDay))
    ∧ (∀ tz e d : Int,
        Scored.upsertStatus tz (parseIsoDate e + d * msPerDay) e
          = Cleanup.determineStatus tz (parseIsoDate e + d * msPerDay)
              (parseIsoDate e)
        ↔ 61 ≤ d) := by
  constructor
  · intro tz nowMs r
    simp only [Cleanup.updateDomainStatusStep]
    split_ifs with h
    · rfl
    · push_neg at h
      exact h.1.symm
  · intro tz e d
    rw [determineStatus_day_shift]
    simp only [Scored.upsertStatus, upsertDaysUntilDrop_day_shift,
      Cleanup.statusFromDaysSinceExpiry]
    split_ifs <;> constructor <;> intro h <;>
      first
        | omega
        | (exact absurd h (by decide))
        | rfl

/-- C1: the DNS A-record signal is an absolute veto — in the multi-method
validator, whenever the quick DNS check reports registered the verdict is
rejected, regardless of the WHOIS attempts; and in the scored script's
validator every confirmation comes from a Namecheap-available scrape or a
successful WHOIS query, never from the DNS signal (the only branch that
consults DNS rejects unconditionally). -/
theorem dns_registered_veto :
    (∀ (parse : String → Option Int) (nowMs : Int)
        (dnsResponse : Option (Option (List String)))
        (whoisAttempts : List (Except String WhoisData)),
      quickDomainCheck dnsResponse = .registered →
      (MultiMethod.isActuallyExpiring parse nowMs dnsResponse
        whoisAttempts).verdict = false)
    ∧ (∀ (parse : String → Option Int) (nowMs : Int)
        (source : Scored.StatusSource) (nc : Scored.NamecheapStatus)
        (whoisAttempts : List (Except String WhoisData))
        (dnsResponse : Option (Option (List String))),
      (Scored.isActuallyExpiring parse nowMs source nc whoisAttempts
        dnsResponse).verdict = true →
      nc = .available
        ∨ ∃ result, queryWhoisWithRetry whoisAttempts = .ok result) := by
  constructor
  · intro parse nowMs dnsResponse whoisAttempts h
    simp [MultiMethod.isActuallyExpiring, h]
  · intro parse nowMs source nc whoisAttempts dnsResponse h
    cases source with
    | namecheap =>
      cases nc with
      | available => exact Or.inl rfl
      | taken => exact Bool.noConfusion h
      | unknown =>
        cases hq : queryWhoisWithRetry whoisAttempts with
        | error msg =>
          have hval : Scored.isActuallyExpiring parse nowMs .namecheap .unknown
              whoisAttempts dnsResponse = ⟨false, true⟩ := by
            simp [Scored.isActuallyExpiring, Scored.whoisPhase, hq]
          rw [hval] at h
          exact Bool.noConfusion h
        | ok result => exact Or.inr ⟨result, rfl⟩
    | whois =>
      cases hq : queryWhoisWithRetry whoisAttempts with
      | error msg =>
        have hval : Scored.isActuallyExpiring parse nowMs .whois nc
            whoisAttempts dnsResponse = ⟨decide (nc = .available), true⟩ := by
          simp [Scored.isActuallyExpiring, Scored.whoisPhase, hq]
        rw [hval] at h
        exact Or.inl (by simpa using h)
      | ok result => exact Or.inr ⟨result, rfl⟩

/-- C1 witness: a DoH response with a non-empty Answer array classifies as
registered and the multi-method validator rejects; and a scored-validator
confirmation implies a Namecheap-available scrape or a WHOIS success. -/
theorem dns_registered_veto_witness :
    quickDomainCheck (some (some ["93.184.216.34"])) = DnsStatus.registered
    ∧ (MultiMethod.isActuallyExpiring (fun _ => none) 0
        (some (some ["93.184.216.34"])) []).verdict = false
    ∧ (Scored.NamecheapStatus.available = Scored.NamecheapStatus.available
        ∨ ∃ result,
            queryWhoisWithRetry ([] : List (Except String WhoisData))
              = .ok result) :=
  ⟨by decide,
   dns_registered_veto.1 (fun _ => none) 0 (some (some ["93.184.216.34"])) []
     (by decide),
   dns_registered_veto.2 (fun _ => none) 0 .namecheap .available [] none
     (by decide)⟩

/-- C2: in the multi-method validator, when the WHOIS query succeeds but is
not clearly registered and yields no parseable expiry date from any of the
known field-name variants, the verdict is confirmed exactly when the
preceding DNS signal was available (no records), and rejected otherwise
(DNS registered or unknown). -/
theorem whois_no_expiry_dns_decides :
    ∀ (parse : String → Option Int) (nowMs : Int)
      (dnsResponse : Option (Option (List String)))
      (whoisAttempts : List (Except String WhoisData)) (result : WhoisData),
      queryWhoisWithRetry whoisAttempts = .ok result →
      isWhoisClearlyRegistered parse nowMs result = false →
      parseWhoisDate parse (getWhoisValue result MultiMethod.expiryFieldKeys)
        = none →
      ((MultiMethod.isActuallyExpiring parse nowMs dnsResponse
          whoisAttempts).verdict = true
        ↔ quickDomainCheck dnsResponse = .available) := by
  intro parse nowMs dnsResponse whoisAttempts result hq hreg hexp
  cases hdns : quickDomainCheck dnsResponse <;>
    by_cases hemp : result.isEmpty <;>
    simp [MultiMethod.isActuallyExpiring, hdns, hq, hemp, hreg, hexp]

/-- C2 witness: a WHOIS success carrying only an unrecognized field, after a
no-records DNS response, confirms. -/
theorem whois_no_expiry_dns_decides_witness :
    (MultiMethod.isActuallyExpiring (fun _ => none) 0 (some none)
      [Except.ok [("foo", "bar")]]).verdict = true :=
  (whois_no_expiry_dns_decides (fun _ => none) 0 (some none)
      [Except.ok [("foo", "bar")]] [("foo", "bar")]
      rfl (by decide) (by decide)).mpr (by decide)

/-- C3 counterexample: DNS reports no records (available) and the WHOIS
query fails entirely after its bounded retries, yet the scored script's
validator (default scrape-first configuration, scrape inconclusive) returns
rejected rather than confirmed, and the library validator returns confirmed
on any WHOIS failure rather than rejecting — both against the claim. -/
theorem whois_failure_claim_counterexample :
    quickDomainCheck (some none) = DnsStatus.available
    ∧ Scored.isActuallyExpiring (fun _ => none) 0 .namecheap .unknown
        [Except.error "connection reset", Except.error "connection reset"]
        (some none)
      = ⟨false, true⟩
    ∧ WhoisValidator.isActuallyExpiring (fun _ => none) 0
        (Except.error "econnreset") = true := by
  refine ⟨?_, ?_, ?_⟩ <;> decide

/-- C3 amended: when the WHOIS query fails entirely after the bounded
retries, the multi-method validator (whenever DNS did not already veto)
confirms exactly when the DNS signal was available and flags the outcome as
a validator-level error; the scored script's validator in its default
scrape-first configuration instead always rejects, still flagging the
error; and the library validator confirms on any WHOIS failure. -/
theorem whois_failure_fallback :
    (∀ (parse : String → Option Int) (nowMs : Int)
        (dnsResponse : Option (Option (List String)))
        (whoisAttempts : List (Except String WhoisData)) (msg : String),
      queryWhoisWithRetry whoisAttempts = .error msg →
      quickDomainCheck dnsResponse ≠ .registered →
      MultiMethod.isActuallyExpiring parse nowMs dnsResponse whoisAttempts
        = ⟨decide (quickDomainCheck dnsResponse = .available), true⟩)
    ∧ (∀ (parse : String → Option Int) (nowMs : Int)
        (whoisAttempts : List (Except String WhoisData))
        (dnsResponse : Option (Option (List String))) (msg : String),
      queryWhoisWithRetry whoisAttempts = .error msg →
      Scored.isActuallyExpiring parse nowMs .namecheap .unknown whoisAttempts
        dnsResponse = ⟨false, true⟩)
    ∧ (∀ (parse : String → Option Int) (nowMs : Int) (msg : String),
      WhoisValidator.isActuallyExpiring parse nowMs (.error msg) = true) := by
  refine ⟨?_, ?_, ?_⟩
  · intro parse nowMs dnsResponse whoisAttempts msg hq hdns
    cases hd : quickDomainCheck dnsResponse with
    | registered => exact absurd hd hdns
    | available => simp [MultiMethod.isActuallyExpiring, hd, hq]
    | unknown => simp [MultiMethod.isActuallyExpiring, hd, hq]
  · intro parse nowMs whoisAttempts dnsResponse msg hq
    simp [Scored.isActuallyExpiring, Scored.whoisPhase, hq]
  · intro parse nowMs msg
    rfl

/-- C3 amended witness: a single non-transient WHOIS failure with a
no-records DNS response — the multi-method validator confirms with the
error flagged, the scored validator rejects with the error flagged, the
library validator confirms. -/
theorem whois_failure_fallback_witness :
    MultiMethod.isActuallyExpiring (fun _ => none) 0 (some none)
        [Except.error "etimedout"] = ⟨true, true⟩
    ∧ Scored.isActuallyExpiring (fun _ => none) 0 .namecheap .unknown
        [Except.error "etimedout"] (some none) = ⟨false, true⟩
    ∧ WhoisValidator.isActuallyExpiring (fun _ => none) 0
        (Except.error "x") = true :=
  ⟨(whois_failure_fallback.1 (fun _ => none) 0 (some none)
      [Except.error "etimedout"] "etimedout" rfl (by decide)).trans
    (by decide),
   whois_failure_fallback.2.1 (fun _ => none) 0 [Except.error "etimedout"]
     (some none) "etimedout" rfl,
   whois_failure_fallback.2.2 (fun _ => none) 0 "x"⟩

end DomainChecker
